import Mathlib

/-!
Verification development for the sfptpd clock-feed service
(src/sfptpd_clockfeed.c) and the SHM servo module
(src/shm/sfptpd_shm_module.c).

Shallow embedding conventions:
  * C `struct timespec` values in the clock-feed are modelled as total
    nanosecond counts (`Int`); `sfptpd_time_add`/`sfptpd_time_subtract`/
    `sfptpd_time_cmp` become integer addition/subtraction/comparison.
  * `struct sfptpd_timespec` values in the SHM module are modelled as a
    (sec : Int, nsec : Nat) pair because the servo inspects the two fields
    separately (`nsec_frac` is modelled as zero).
  * `long double` quantities (offsets in ns, frequency adjustments in ppb)
    are modelled as exact rationals.
  * The C `uint64_t write_counter` is read into C `int` variables in
    `clockfeed_compare_to_sys`; the truncating conversion is modelled by
    `toInt32`.
  * Heap objects are modelled by value; sources carry a synthetic identity
    `sid` standing for their address, and "freeing" a source is modelled as
    removing it from the module lists.
  * External effects (clock stepping, frequency adjustment) are recorded in
    an explicit actions record.
-/

namespace Sfptpd

/-- Truncation of a 64-bit unsigned counter to a C `int`
(32-bit two's complement), as in `int writer1 = shm->write_counter`. -/
def toInt32 (n : Nat) : Int :=
  if n % 4294967296 < 2147483648 then ((n % 4294967296 : Nat) : Int)
  else ((n % 4294967296 : Nat) : Int) - 4294967296

/-! ### Clock-feed data model (src/sfptpd_clockfeed.c) -/

/-- One record of `struct sfptpd_clockfeed_sample`.  Times are total
nanoseconds. `snapshot` is `system + (hw_clock - system)` when `rc = 0`. -/
structure CfSample where
  seq : Nat
  rc : Int
  mono : Int
  system : Int
  snapshot : Int
deriving DecidableEq

def CfSample.zero : CfSample := ⟨0, 0, 0, 0, 0⟩

/-- `struct clockfeed_shm`: ring of `MAX_CLOCK_SAMPLES = 16` samples plus the
write counter.  The fixed array is modelled as a list indexed with `getD`. -/
structure CfShm where
  samples : List CfSample
  write_counter : Nat
deriving DecidableEq

/-- `struct sfptpd_clockfeed_sub` (subscription). -/
structure CfSub where
  read_counter : Int
  min_counter : Int
  have_max_age : Bool
  have_max_age_diff : Bool
  max_age : Int
  max_age_diff : Int
deriving DecidableEq

/-- `struct clockfeed_source`.  `sid` is a synthetic identity standing for
the heap address of the source record. -/
structure CfSource where
  sid : Nat
  clock : Nat
  poll_period_log2 : Int
  cycles : Nat
  shm : CfShm
  subscribers : List Nat
  inactive : Bool
deriving DecidableEq

/-- Result codes returned by the clock-feed read path, named after the
errno values the C code uses.  The specification's abstract names map as:
NO_DATA (ring empty) = `eagain`, OVERRUN (writer lapped reader) = `enodata`,
STALE = `estale`, OWNER_DEAD = `eownerdead`, NOT_ACTIVE = `enoent`. -/
inductive ClockfeedRc where
  | ok
  | eownerdead
  | enoent
  | eagain
  | enodata
  | estale
deriving DecidableEq

/-- Return bundle of `clockfeed_compare_to_sys`: the returned code, the
`*diff` out-parameter, the (possibly updated) subscription, and the
`t1`/`t2`/`mono_time` out-parameters. -/
structure CompareToSysResult where
  rc : ClockfeedRc
  diff : Int
  sub : CfSub
  t1 : Option Int
  t2 : Option Int
  mono : Option Int
deriving DecidableEq

/-- Ring index `(writer1 - 1) & index_mask` with `index_mask = 15`; bitwise
AND of a two's-complement int with 15 is the nonnegative remainder mod 16. -/
def sampleIndex (w : Int) : Nat := ((w - 1) % 16).toNat

/-- `clockfeed_compare_to_sys` (src/sfptpd_clockfeed.c lines 883-969).
The source state is read once (`src`), the re-read of the write counter is
the separate input `writer2Read`, and `monoNow` is the `CLOCK_MONOTONIC`
reading used by the max-age check (`none` models `clock_gettime` failing). -/
def clockfeed_compare_to_sys (sub : CfSub) (src : CfSource) (clockActive : Bool)
    (writer2Read : Nat) (monoNow : Option Int) : CompareToSysResult :=
  let writer1 : Int := toInt32 src.shm.write_counter
  if src.inactive then ⟨.eownerdead, 0, sub, none, none, none⟩
  else if clockActive = false then ⟨.enoent, 0, sub, none, none, none⟩
  else if writer1 = 0 then ⟨.eagain, 0, sub, none, none, none⟩
  else
    let sample := src.shm.samples.getD (sampleIndex writer1) CfSample.zero
    if sample.rc ≠ 0 then ⟨.ok, 0, sub, none, none, none⟩
    else
      let diff := sample.snapshot - sample.system
      let writer2 : Int := toInt32 writer2Read
      if writer1 + 15 ≤ writer2 then ⟨.enodata, diff, sub, none, none, none⟩
      else if writer1 < sub.min_counter then ⟨.estale, diff, sub, none, none, none⟩
      else
        let success : CompareToSysResult :=
          ⟨.ok, diff, { sub with read_counter := writer1 },
           some sample.snapshot, some sample.system, some sample.mono⟩
        if sub.have_max_age then
          match monoNow with
          | none => ⟨.eagain, diff, sub, none, none, none⟩
          | some now =>
            if sub.max_age < now - sample.mono then
              ⟨.estale, diff, sub, none, none, none⟩
            else success
        else success

/-! ### Clock-feed module registration state and message handlers -/

/-- `struct sfptpd_clockfeed`: linked lists of live and removed sources and
the event-subscriber table (`MAX_EVENT_SUBSCRIBERS = 4` slots, modelled as a
list of option slots). -/
structure CfModule where
  poll_period_log2 : Int
  running_phase : Bool
  active : List CfSource
  inactive : List CfSource
  event_subscribers : List (Option Nat)
deriving DecidableEq

def cfSources (m : CfModule) : List CfSource := m.active ++ m.inactive

def cfSids (m : CfModule) : List Nat := (cfSources m).map (fun s => s.sid)

def findBySid (l : List CfSource) (sid : Nat) : Option CfSource :=
  l.find? (fun s => s.sid == sid)

/-- Unlink the first node with the given identity, as the pointer walk in
`clockfeed_reap_zombies` does. -/
def removeBySid : List CfSource → Nat → List CfSource
  | [], _ => []
  | s :: rest, sid => if s.sid == sid then rest else s :: removeBySid rest sid

/-- `clockfeed_reap_zombies` (lines 300-325): if the source is inactive and
has no subscribers, unlink it from the inactive list and free it. -/
def clockfeed_reap_zombies (m : CfModule) (sid : Nat) : CfModule :=
  match findBySid (cfSources m) sid with
  | none => m
  | some src =>
    if src.inactive && src.subscribers.isEmpty then
      { m with inactive := removeBySid m.inactive sid }
    else m

/-- Removal of one subscriber from the subscriber list of the source with
identity `sid` (the unlink loop in `clockfeed_on_unsubscribe`). -/
def unsubSource (sid subId : Nat) (s : CfSource) : CfSource :=
  if s.sid == sid then { s with subscribers := s.subscribers.erase subId } else s

/-- `clockfeed_on_unsubscribe` (lines 546-576): unlink the subscription from
its source, then reap the source if it became a childless zombie. -/
def clockfeed_on_unsubscribe (m : CfModule) (sid subId : Nat) : CfModule :=
  let m' := { m with active := m.active.map (unsubSource sid subId),
                     inactive := m.inactive.map (unsubSource sid subId) }
  clockfeed_reap_zombies m' sid

/-- Freshly calloc'ed source as populated by `clockfeed_on_add_clock`. -/
def mkSource (sid clock : Nat) (pp : Int) : CfSource :=
  { sid := sid, clock := clock, poll_period_log2 := pp, cycles := 0,
    shm := { samples := [], write_counter := 0 },
    subscribers := [], inactive := false }

/-- `clockfeed_on_add_clock` (lines 422-460): coerce a too-fast poll rate up
to the global minimum and push the new source on the active list. -/
def clockfeed_on_add_clock (m : CfModule) (sid clock : Nat) (pp : Int) : CfModule :=
  let pp' := if pp < m.poll_period_log2 then m.poll_period_log2 else pp
  { m with active := mkSource sid clock pp' :: m.active }

/-- The search-and-unlink walk over the active list in
`clockfeed_on_remove_clock`: first source with the given clock. -/
def removeFirstByClock : List CfSource → Nat → Option (CfSource × List CfSource)
  | [], _ => none
  | s :: rest, c =>
    if s.clock == c then some (s, rest)
    else
      match removeFirstByClock rest c with
      | none => none
      | some (t, l) => some (t, s :: l)

/-- `clockfeed_on_remove_clock` (lines 462-497): unlink from the active
list, mark inactive, push on the inactive list, then reap. -/
def clockfeed_on_remove_clock (m : CfModule) (clock : Nat) : CfModule :=
  match removeFirstByClock m.active clock with
  | none => m
  | some (s, rest) =>
    let s' := { s with inactive := true }
    let m' := { m with active := rest, inactive := s' :: m.inactive }
    clockfeed_reap_zombies m' s.sid

inductive SubscribeEventsRc where
  | ok
  | noSpace
deriving DecidableEq

/-- The slot-filling loop of `clockfeed_on_subscribe_events`: place the
thread in the first empty slot, or report that the table is full. -/
def subscribeSlots : List (Option Nat) → Nat → Option (List (Option Nat))
  | [], _ => none
  | none :: rest, thread => some (some thread :: rest)
  | some t :: rest, thread =>
    match subscribeSlots rest thread with
    | none => none
    | some l => some (some t :: l)

/-- `clockfeed_on_subscribe_events` (lines 578-598).  When every slot is
occupied the C code performs `sfptpd_thread_exit(ENOSPC)`;
`sfptpd_thread_exit` is not under src/, so that arm is
Modelled from the spec: the full-table failure delivers the `NO_SPACE`
error to the requesting subscriber and is fatal for that subscriber only,
and the subscriber table is left unchanged. -/
def clockfeed_on_subscribe_events (m : CfModule) (thread : Nat) :
    CfModule × SubscribeEventsRc :=
  match subscribeSlots m.event_subscribers thread with
  | some slots => ({ m with event_subscribers := slots }, .ok)
  | none => (m, .noSpace)

/-! ### SHM module data model (src/shm/sfptpd_shm_module.c) -/

/-- `struct sfptpd_timespec` restricted to the fields the SHM module
inspects (`nsec_frac` is modelled as zero). -/
structure Timespec where
  sec : Int
  nsec : Nat
deriving DecidableEq

def Timespec.zero : Timespec := ⟨0, 0⟩

/-- `sfptpd_time_timespec_to_float_ns`. -/
def Timespec.toNs (t : Timespec) : ℚ := (t.sec : ℚ) * 1000000000 + (t.nsec : ℚ)

/-- `sfptpd_sync_module_state_t`. -/
inductive SyncState where
  | listening
  | slave
  | master
  | passive
  | disabled
  | faulty
  | selection
deriving DecidableEq

/-- The four SHM alarm bits. -/
structure Alarms where
  no_signal : Bool
  seq_num_error : Bool
  bad_signal : Bool
  no_time_of_day : Bool
deriving DecidableEq

/-- `alarms == 0`. -/
def Alarms.clear : Alarms := ⟨false, false, false, false⟩

/-- `sfptpd_sync_module_ctrl_flags_t` bits. -/
structure CtrlFlags where
  timestamp_processing : Bool
  clock_ctrl : Bool
  selected : Bool
  clustering_determinant : Bool
deriving DecidableEq

/-- Bitmask update `(old & ~mask) | (flags & mask)` from `shm_on_control`. -/
def CtrlFlags.apply (old mask flags : CtrlFlags) : CtrlFlags :=
  { timestamp_processing :=
      if mask.timestamp_processing then flags.timestamp_processing
      else old.timestamp_processing,
    clock_ctrl := if mask.clock_ctrl then flags.clock_ctrl else old.clock_ctrl,
    selected := if mask.selected then flags.selected else old.selected,
    clustering_determinant :=
      if mask.clustering_determinant then flags.clustering_determinant
      else old.clustering_determinant }

/-- `enum sfptpd_clock_ctrl` (general configuration), the clock-control
policies tested by `shm_servo_update` plus a no-step policy. -/
inductive ClockCtrl where
  | slewAndStep
  | stepAtStartup
  | stepForward
  | noStep
deriving DecidableEq

/-- Modelled from the spec: `sfptpd_fir_filter_t` (sfptpd_filter.c is not
under src/).  A box mean of the last `stiffness` in [1,64] samples. -/
structure FirFilter where
  stiffness : Nat
  samples : List ℚ
deriving DecidableEq

def sfptpd_fir_filter_reset (f : FirFilter) : FirFilter := { f with samples := [] }

def sfptpd_fir_filter_update (f : FirFilter) (x : ℚ) : ℚ × FirFilter :=
  let samples := (x :: f.samples).take f.stiffness
  (samples.sum / (samples.length : ℚ), { f with samples := samples })

/-- Modelled from the spec: `sfptpd_pid_filter_t` (sfptpd_filter.c is not
under src/).  `output = kp*e + ki*INT(e) + kd*de`, with the integral term
saturated at the configured maximum; reset zeroes the accumulators. -/
structure PidFilter where
  kp : ℚ
  ki : ℚ
  kd : ℚ
  i_term_max : ℚ
  p_term : ℚ
  i_term : ℚ
  prev_error : ℚ
deriving DecidableEq

def sfptpd_pid_filter_reset (f : PidFilter) : PidFilter :=
  { f with p_term := 0, i_term := 0, prev_error := 0 }

def sfptpd_pid_filter_update (f : PidFilter) (e : ℚ) : ℚ × PidFilter :=
  let p := f.kp * e
  let i0 := f.i_term + f.ki * e
  let i := if f.i_term_max < i0 then f.i_term_max
           else if i0 < -f.i_term_max then -f.i_term_max else i0
  let d := f.kd * (e - f.prev_error)
  (p + i + d, { f with p_term := p, i_term := i, prev_error := e })

/-- Modelled from the spec: `sfptpd_notch_filter_t` (sfptpd_filter.c is not
under src/).  Accepts periods inside [mid - width, mid + width], returning 0
on pass and nonzero on fail. -/
structure NotchFilter where
  mid : ℚ
  width : ℚ
deriving DecidableEq

def sfptpd_notch_filter_update (f : NotchFilter) (x : ℚ) : Int :=
  if f.mid - f.width ≤ x ∧ x ≤ f.mid + f.width then 0 else 1

/-- Modelled from the spec: `struct sfptpd_peirce_filter` (sfptpd_filter.c
is not under src/).  Holds the last `size` samples; a sample is an outlier
when its squared distance from the mean exceeds the tabulated squared
Peirce criterion (`criterion2`, indexed by sample count) times the variance;
rejected samples are fed back scaled by `adaption`. -/
structure PeirceFilter where
  size : Nat
  adaption : ℚ
  criterion2 : List ℚ
  samples : List ℚ
deriving DecidableEq

def sfptpd_peirce_filter_reset (f : PeirceFilter) : PeirceFilter :=
  { f with samples := [] }

def sfptpd_peirce_filter_update (f : PeirceFilter) (x : ℚ) : Int × PeirceFilter :=
  let n := f.samples.length
  if n = 0 then (0, { f with samples := (x :: f.samples).take f.size })
  else
    let mean := f.samples.sum / (n : ℚ)
    let var := (f.samples.map (fun s => (s - mean) ^ 2)).sum / (n : ℚ)
    let k2 := f.criterion2.getD n 1
    if k2 * var < (x - mean) ^ 2 then
      (1, { f with samples := ((mean + f.adaption * (x - mean)) :: f.samples).take f.size })
    else (0, { f with samples := (x :: f.samples).take f.size })

/-- Modelled from the spec: `struct sfptpd_stats_convergence`
(sfptpd_statistics.c is not under src/).  A sample is in sync when
`|offset| <= max_offset`; the instance is converged once samples have stayed
in sync for at least `min_period` seconds; reset forgets the streak. -/
structure StatsConvergence where
  max_offset : ℚ
  min_period : Int
  start_time : Option Int
deriving DecidableEq

def sfptpd_stats_convergence_reset (c : StatsConvergence) : StatsConvergence :=
  { c with start_time := none }

def sfptpd_stats_convergence_update (c : StatsConvergence) (t : Int) (offset : ℚ) :
    Bool × StatsConvergence :=
  if |offset| ≤ c.max_offset then
    match c.start_time with
    | none => (false, { c with start_time := some t })
    | some t0 => (decide (c.min_period ≤ t - t0), c)
  else (false, sfptpd_stats_convergence_reset c)

/-- `struct sfptpd_shm_instance` restricted to the state touched by the
embedded handlers.  `last_shm_time` is a monotonic nanosecond count;
`propagation_delay` is the per-instance configuration value; the
long-term-stats counters are inlined. -/
structure ShmInstance where
  ctrl_flags : CtrlFlags
  freq_adjust_max : ℚ
  state : SyncState
  alarms : Alarms
  last_shm_time : Int
  shm_timestamp : Timespec
  shm_seq_num : Nat
  notch_filter : NotchFilter
  outlier_filter : Option PeirceFilter
  fir_filter : FirFilter
  pid_filter : PidFilter
  convergence : StatsConvergence
  offset_from_master_ns : ℚ
  freq_adjust_base : ℚ
  freq_adjust_ppb : ℚ
  servo_active : Bool
  shm_period_ns : ℚ
  synchronized : Bool
  prev_state : SyncState
  prev_alarms : Alarms
  consecutive_good_periods : Nat
  clustering_score : Int
  prev_clustering_score : Int
  step_occurred : Bool
  clock_steps : Nat
  seq_num_errors : Nat
  bad_signal_errors : Nat
  outliers : Nat
  propagation_delay : ℚ
deriving DecidableEq

/-- External inputs consumed by one servo/event step: the configured
clock-control policy, the saved frequency correction returned by
`sfptpd_clock_get_freq_correction`, the current monotonic time, and the
clustering score returned by the engine's evaluator. -/
structure ShmEnv where
  clock_ctrl : ClockCtrl
  freq_correction : ℚ
  now_mono : Int
  clustering_score : Int
deriving DecidableEq

/-- External clock commands issued during a servo step:
`sfptpd_clock_adjust_time` (an absolute step by the negated offset) and
`sfptpd_clock_adjust_frequency` with the given ppb value. -/
structure ServoActions where
  stepped_clock : Bool
  freq_adjust_cmd : Option ℚ
deriving DecidableEq

def noServoActions : ServoActions := ⟨false, none⟩

/-- Result of a servo or event step: the updated instance, the module-level
`time_of_day.status.offset_from_master`, and the clock commands issued. -/
structure ServoResult where
  inst : ShmInstance
  tod_offset : Timespec
  actions : ServoActions
deriving DecidableEq

/-- `shm_servo_reset` (lines 734-754): reset FIR and PID filters, reload the
frequency adjustment from the saved correction, zero the offset, the
module's time-of-day offset (second component), the SHM timestamp anchor
and the period. -/
def shm_servo_reset (env : ShmEnv) (inst : ShmInstance) : ShmInstance × Timespec :=
  ({ inst with
      fir_filter := sfptpd_fir_filter_reset inst.fir_filter,
      pid_filter := sfptpd_pid_filter_reset inst.pid_filter,
      freq_adjust_base := env.freq_correction,
      freq_adjust_ppb := env.freq_correction,
      offset_from_master_ns := 0,
      shm_timestamp := Timespec.zero,
      shm_period_ns := 0 },
   Timespec.zero)

/-- `shm_servo_step_clock` (lines 757-797): step the slave clock backwards
by the offset (`sfptpd_clock_adjust_time`), restore the saved frequency
(`sfptpd_clock_adjust_frequency`), reset the servo, notify the time-of-day
module, and flag that a step occurred. -/
def shm_servo_step_clock (env : ShmEnv) (inst : ShmInstance) : ServoResult :=
  let r := shm_servo_reset env inst
  { inst := { r.1 with step_occurred := true },
    tod_offset := r.2,
    actions := { stepped_clock := true, freq_adjust_cmd := some env.freq_correction } }

/-- The offset computed at the top of `shm_servo_update` (lines 818-834):
seconds from the time of day rounded to the nearest second, nanoseconds from
the SHM timestamp (borrowing one second when they represent a negative
sub-second phase), minus the configured propagation delay. -/
def shm_servo_offset (inst : ShmInstance) (time tod : Timespec) : ℚ :=
  let sec1 : Int := tod.sec + (if 500000000 ≤ tod.nsec then 1 else 0)
  let sec2 : Int := sec1 - (if 500000000 ≤ time.nsec then 1 else 0)
  ((sec2 : ℚ) * 1000000000 + (time.nsec : ℚ)) - inst.propagation_delay

/-- The policy disjunction guarding the step decision (lines 841-843). -/
def shm_step_policy (env : ShmEnv) (inst : ShmInstance) (offset : ℚ) : Bool :=
  decide (env.clock_ctrl = ClockCtrl.slewAndStep)
  || (decide (env.clock_ctrl = ClockCtrl.stepAtStartup) && !inst.servo_active)
  || (decide (env.clock_ctrl = ClockCtrl.stepForward) && decide (offset < 0))

/-- The `SHM_CLOCK_STEP_THRESHOLD = 500000000.0` ns test (lines 844-845),
equivalent to `|offset| >= 500 ms`. -/
def shm_step_threshold (offset : ℚ) : Bool :=
  decide (offset ≤ -500000000) || decide ((500000000 : ℚ) ≤ offset)

/-- `shm_servo_update` (lines 800-893).  `time` is the SHM timestamp of the
event and `tod` the module's current time-of-day offset. -/
def shm_servo_update (env : ShmEnv) (inst : ShmInstance) (time tod : Timespec) :
    ServoResult :=
  let offset := shm_servo_offset inst time tod
  if shm_step_policy env inst offset && shm_step_threshold offset then
    if inst.ctrl_flags.clock_ctrl then
      let r := shm_servo_step_clock env inst
      { inst := { r.inst with clock_steps := r.inst.clock_steps + 1,
                              servo_active := true },
        tod_offset := r.tod_offset, actions := r.actions }
    else { inst := inst, tod_offset := tod, actions := noServoActions }
  else
    let u := sfptpd_fir_filter_update inst.fir_filter offset
    let inst1 := { inst with fir_filter := u.2, offset_from_master_ns := u.1,
                             freq_adjust_ppb := inst.freq_adjust_base }
    if inst.ctrl_flags.clock_ctrl then
      let v := sfptpd_pid_filter_update inst1.pid_filter u.1
      let ppb0 := inst1.freq_adjust_ppb + v.1
      let ppb := if inst.freq_adjust_max < ppb0 then inst.freq_adjust_max
                 else if ppb0 < -inst.freq_adjust_max then -inst.freq_adjust_max
                 else ppb0
      { inst := { inst1 with pid_filter := v.2, freq_adjust_ppb := ppb,
                             servo_active := true },
        tod_offset := tod,
        actions := { stepped_clock := false, freq_adjust_cmd := some ppb } }
    else { inst := inst1, tod_offset := tod, actions := noServoActions }

/-- `shm_state_machine_reset` (lines 1326-1342). -/
def shm_state_machine_reset (inst : ShmInstance) : ShmInstance :=
  { inst with
    state := SyncState.listening,
    prev_state := SyncState.listening,
    alarms := Alarms.clear,
    prev_alarms := Alarms.clear,
    consecutive_good_periods := 0,
    shm_timestamp := Timespec.zero,
    shm_seq_num := 0,
    shm_period_ns := 0,
    outlier_filter := inst.outlier_filter.map sfptpd_peirce_filter_reset }

/-- `shm_on_no_shm_event` (lines 1345-1388).  `now` is the monotonic time in
nanoseconds; the timeouts are 60 s (reset to listening) and 1.1 s
(NO_SIGNAL alarm). -/
def shm_on_no_shm_event (now : Int) (inst : ShmInstance) : ShmInstance :=
  match inst.state with
  | SyncState.listening => inst
  | SyncState.slave =>
    let interval := now - inst.last_shm_time
    if 60000000000 ≤ interval then shm_state_machine_reset inst
    else if 1100000000 ≤ interval ∧ inst.alarms.no_signal = false then
      { inst with alarms := { inst.alarms with no_signal := true } }
    else inst
  | SyncState.faulty => shm_state_machine_reset inst
  | _ => inst

/-- `shm_on_shm_event` (lines 1465-1594).  `tod` is the module's
time-of-day offset passed through to the servo; the trailing record of
`shm_seq_num`, `last_shm_time` and (when timestamp processing is enabled)
`shm_timestamp` applies on every path out of the state switch. -/
def shm_on_shm_event (env : ShmEnv) (inst : ShmInstance) (tod : Timespec)
    (seq_num : Nat) (time : Timespec) : ServoResult :=
  let core : ServoResult :=
    match inst.state with
    | SyncState.faulty =>
      { inst := { inst with state := SyncState.slave, shm_period_ns := 0 },
        tod_offset := tod, actions := noServoActions }
    | SyncState.listening =>
      { inst := { inst with state := SyncState.slave, shm_period_ns := 0 },
        tod_offset := tod, actions := noServoActions }
    | SyncState.slave =>
      let i1 := { inst with alarms := { inst.alarms with no_signal := false } }
      let i2 :=
        if seq_num ≠ 4294967295 ∧ seq_num ≠ (i1.shm_seq_num + 1) % 4294967296 then
          { i1 with alarms := { i1.alarms with seq_num_error := true },
                    seq_num_errors := i1.seq_num_errors + 1 }
        else { i1 with alarms := { i1.alarms with seq_num_error := false } }
      if i2.ctrl_flags.timestamp_processing = false then
        { inst := i2, tod_offset := tod, actions := noServoActions }
      else if i2.step_occurred then
        { inst := { i2 with step_occurred := false, shm_timestamp := Timespec.zero },
          tod_offset := tod, actions := noServoActions }
      else
        let i3 :=
          if i2.shm_timestamp.sec ≠ 0 then
            let period := time.toNs - i2.shm_timestamp.toNs
            let i3a := { i2 with shm_period_ns := period }
            if sfptpd_notch_filter_update i3a.notch_filter period ≠ 0 then
              { i3a with alarms := { i3a.alarms with bad_signal := true },
                         bad_signal_errors := i3a.bad_signal_errors + 1,
                         consecutive_good_periods := 0 }
            else { i3a with consecutive_good_periods := i3a.consecutive_good_periods + 1 }
          else i2
        if 3 ≤ i3.consecutive_good_periods then
          let i4 := { i3 with alarms := { i3.alarms with bad_signal := false } }
          let pr : Int × ShmInstance :=
            match i4.outlier_filter with
            | none => (0, i4)
            | some f =>
              let u := sfptpd_peirce_filter_update f i4.shm_period_ns
              (u.1, { i4 with outlier_filter := some u.2,
                              outliers := if u.1 ≠ 0 then i4.outliers + 1
                                          else i4.outliers })
          if pr.1 = 0 then
            let r := shm_servo_update env pr.2 time tod
            { inst := { r.inst with clustering_score := env.clustering_score },
              tod_offset := r.tod_offset, actions := r.actions }
          else { inst := pr.2, tod_offset := tod, actions := noServoActions }
        else { inst := i3, tod_offset := tod, actions := noServoActions }
    | _ => { inst := inst, tod_offset := tod, actions := noServoActions }
  { inst := { core.inst with
      shm_seq_num := seq_num,
      last_shm_time := env.now_mono,
      shm_timestamp := if core.inst.ctrl_flags.timestamp_processing then time
                       else core.inst.shm_timestamp },
    tod_offset := core.tod_offset, actions := core.actions }

/-- `shm_convergence_update` (lines 1211-1243).  `gettimeOk` models the
return of `sfclock_gettime` and `nowSec` the monotonic seconds it yields. -/
def shm_convergence_update (gettimeOk : Bool) (nowSec : Int) (inst : ShmInstance) :
    ShmInstance :=
  if gettimeOk = false ∨ inst.state ≠ SyncState.slave then
    { inst with synchronized := false,
                convergence := sfptpd_stats_convergence_reset inst.convergence }
  else if inst.alarms ≠ Alarms.clear ∨ inst.ctrl_flags.timestamp_processing = false then
    inst
  else
    let r := sfptpd_stats_convergence_update inst.convergence nowSec
               inst.offset_from_master_ns
    { inst with synchronized := r.1, convergence := r.2 }

/-- `shm_on_control` (lines 1931-1967): apply the masked flag update,
resetting only the PID filter when clock control is being disabled and
zeroing only the timestamp anchor when timestamp processing is being
disabled. -/
def shm_on_control (inst : ShmInstance) (mask flags : CtrlFlags) : ShmInstance :=
  let newFlags := CtrlFlags.apply inst.ctrl_flags mask flags
  let inst1 :=
    if inst.ctrl_flags.clock_ctrl && !newFlags.clock_ctrl then
      { inst with pid_filter := sfptpd_pid_filter_reset inst.pid_filter }
    else inst
  let inst2 :=
    if inst.ctrl_flags.timestamp_processing && !newFlags.timestamp_processing then
      { inst1 with shm_timestamp := Timespec.zero }
    else inst1
  { inst2 with ctrl_flags := newFlags }

/-! ### Concrete states used by witnesses and counterexamples -/

def cexSample : CfSample := ⟨0, 1, 2, 3, 10⟩

def cexSrc : CfSource :=
  { sid := 0, clock := 0, poll_period_log2 := 0, cycles := 0,
    shm := { samples := List.replicate 16 cexSample, write_counter := 1 },
    subscribers := [], inactive := false }

def cexSub : CfSub := ⟨-1, -1, false, false, 0, 0⟩

def witSample : CfSample := ⟨2, 0, 5, 100, 142⟩

def witSrc : CfSource :=
  { cexSrc with shm := { samples := List.replicate 16 witSample, write_counter := 3 } }

def witSrcC4 : CfSource :=
  { sid := 1, clock := 2, poll_period_log2 := 0, cycles := 0,
    shm := { samples := [], write_counter := 0 },
    subscribers := [7], inactive := true }

def witModC4 : CfModule :=
  { poll_period_log2 := 0, running_phase := true, active := [],
    inactive := [witSrcC4], event_subscribers := [none, none, none, none] }

def witModC9 : CfModule :=
  { poll_period_log2 := 0, running_phase := true, active := [mkSource 0 5 1],
    inactive := [], event_subscribers := [none, none, none, none] }

def witModC7 : CfModule :=
  { poll_period_log2 := 0, running_phase := true, active := [], inactive := [],
    event_subscribers := [some 1, some 2, some 3, some 4] }

def firBase : FirFilter := ⟨4, []⟩

def pidBase : PidFilter :=
  { kp := 1, ki := 1, kd := 0, i_term_max := 50000000,
    p_term := 0, i_term := 0, prev_error := 0 }

def notchBase : NotchFilter := ⟨1000000000, 100000000⟩

def convBase : StatsConvergence :=
  { max_offset := 100000, min_period := 60, start_time := none }

def ctrlBase : CtrlFlags :=
  { timestamp_processing := true, clock_ctrl := false, selected := false,
    clustering_determinant := false }

def shmInstBase : ShmInstance :=
  { ctrl_flags := ctrlBase,
    freq_adjust_max := 50000000,
    state := SyncState.listening,
    alarms := Alarms.clear,
    last_shm_time := 0,
    shm_timestamp := Timespec.zero,
    shm_seq_num := 0,
    notch_filter := notchBase,
    outlier_filter := none,
    fir_filter := firBase,
    pid_filter := pidBase,
    convergence := convBase,
    offset_from_master_ns := 0,
    freq_adjust_base := 0,
    freq_adjust_ppb := 0,
    servo_active := false,
    shm_period_ns := 0,
    synchronized := false,
    prev_state := SyncState.listening,
    prev_alarms := Alarms.clear,
    consecutive_good_periods := 0,
    clustering_score := 0,
    prev_clustering_score := 0,
    step_occurred := false,
    clock_steps := 0,
    seq_num_errors := 0,
    bad_signal_errors := 0,
    outliers := 0,
    propagation_delay := 0 }

def envBase : ShmEnv :=
  { clock_ctrl := ClockCtrl.slewAndStep, freq_correction := 0,
    now_mono := 7, clustering_score := 0 }

def envNoStep : ShmEnv := { envBase with clock_ctrl := ClockCtrl.noStep }

def instFaultyC3 : ShmInstance :=
  { shmInstBase with state := SyncState.faulty,
                     alarms := { Alarms.clear with bad_signal := true },
                     consecutive_good_periods := 1 }

def instAlarmedC6 : ShmInstance :=
  { shmInstBase with state := SyncState.slave, synchronized := true,
                     alarms := { Alarms.clear with no_time_of_day := true } }

def instStepC2 : ShmInstance :=
  { shmInstBase with ctrl_flags := { ctrlBase with clock_ctrl := true } }

def instCexC8 : ShmInstance :=
  { shmInstBase with freq_adjust_base := 2, freq_adjust_max := 1 }

def instWitC8 : ShmInstance :=
  { shmInstBase with ctrl_flags := { ctrlBase with clock_ctrl := true } }

def instWitC10 : ShmInstance :=
  { shmInstBase with ctrl_flags := { ctrlBase with clock_ctrl := true } }

def maskC10 : CtrlFlags :=
  { timestamp_processing := false, clock_ctrl := true, selected := false,
    clustering_determinant := false }

def flagsOffC10 : CtrlFlags :=
  { timestamp_processing := false, clock_ctrl := false, selected := false,
    clustering_determinant := false }

/-! ### Helper lemmas -/

theorem toInt32_of_lt {n : Nat} (h : n < 2147483648) : toInt32 n = (n : Int) := by
  have h1 : n % 4294967296 = n := Nat.mod_eq_of_lt (by omega)
  simp [toInt32, h1, h]

/-! ### Claim C1 -/

/-- Claim C1 (amended): for every read through a subscription whose source
is still active and whose clock is enabled, if the snapshotted write counter
w1 is 0 the read returns the ring-empty error (the spec's NO_DATA, errno
EAGAIN); otherwise the sample at index (w1 - 1) mod 16 is read and, provided
that sample's own rc is 0, the read returns the overrun error (the spec's
OVERRUN, errno ENODATA) exactly when the re-read counter w2 satisfies
w2 >= w1 + 15; when w2 < w1 + 15 no overrun error is reported and the
returned difference comes from that sample's snapshot. -/
theorem clockfeed_read_protocol (sub : CfSub) (src : CfSource)
    (writer2Read : Nat) (monoNow : Option Int)
    (hinact : src.inactive = false)
    (h31 : src.shm.write_counter < 2147483648)
    (h32 : writer2Read < 2147483648) :
    (src.shm.write_counter = 0 →
      (clockfeed_compare_to_sys sub src true writer2Read monoNow).rc = ClockfeedRc.eagain)
    ∧ (src.shm.write_counter ≠ 0 →
        (src.shm.samples.getD (sampleIndex (src.shm.write_counter : Int)) CfSample.zero).rc = 0 →
        (((src.shm.write_counter : Int) + 15 ≤ (writer2Read : Int) →
            (clockfeed_compare_to_sys sub src true writer2Read monoNow).rc = ClockfeedRc.enodata)
          ∧ ((writer2Read : Int) < (src.shm.write_counter : Int) + 15 →
              (clockfeed_compare_to_sys sub src true writer2Read monoNow).rc ≠ ClockfeedRc.enodata
              ∧ (clockfeed_compare_to_sys sub src true writer2Read monoNow).diff =
                  (src.shm.samples.getD (sampleIndex (src.shm.write_counter : Int)) CfSample.zero).snapshot
                  - (src.shm.samples.getD (sampleIndex (src.shm.write_counter : Int)) CfSample.zero).system))) := by
  refine ⟨fun h0 => ?_, fun hne hrc => ?_⟩
  · have hz : toInt32 src.shm.write_counter = 0 := by rw [h0]; decide
    simp [clockfeed_compare_to_sys, hinact, hz]
  · have hne' : ((src.shm.write_counter : Int)) ≠ 0 := Int.natCast_ne_zero.mpr hne
    have hrc' : (src.shm.samples[sampleIndex ((src.shm.write_counter : Int))]?.getD CfSample.zero).rc = 0 := by
      simpa [List.getD_eq_getElem?_getD] using hrc
    refine ⟨fun hov => ?_, fun hlt => ?_⟩
    · simp [clockfeed_compare_to_sys, toInt32_of_lt h31, toInt32_of_lt h32,
            hinact, hne', hrc', hov]
    · have hov' : ¬((src.shm.write_counter : Int) + 15 ≤ (writer2Read : Int)) :=
        not_le.mpr hlt
      by_cases hmin : (src.shm.write_counter : Int) < sub.min_counter
      · constructor <;>
          simp [clockfeed_compare_to_sys, toInt32_of_lt h31, toInt32_of_lt h32,
                hinact, hne', hrc', hov', hmin]
      · by_cases hage : sub.have_max_age
        · cases monoNow with
          | none =>
            constructor <;>
              simp [clockfeed_compare_to_sys, toInt32_of_lt h31, toInt32_of_lt h32,
                    hinact, hne', hrc', hov', hmin, hage]
          | some now =>
            by_cases hold : sub.max_age <
                now - (src.shm.samples[sampleIndex ((src.shm.write_counter : Int))]?.getD CfSample.zero).mono
            · constructor <;>
                simp [clockfeed_compare_to_sys, toInt32_of_lt h31, toInt32_of_lt h32,
                      hinact, hne', hrc', hov', hmin, hage, hold]
            · constructor <;>
                simp [clockfeed_compare_to_sys, toInt32_of_lt h31, toInt32_of_lt h32,
                      hinact, hne', hrc', hov', hmin, hage, hold]
        · constructor <;>
            simp [clockfeed_compare_to_sys, toInt32_of_lt h31, toInt32_of_lt h32,
                  hinact, hne', hrc', hov', hmin, hage]

/-- Claim C1 counterexample: with one sample written (w1 = 1) whose own rc
is nonzero and a re-read counter w2 = 16 satisfying w2 >= w1 + 15, the read
returns success, not the overrun error the claim requires. -/
theorem clockfeed_read_protocol_cex :
    ((1 : Int) + 15 ≤ ((16 : Nat) : Int))
    ∧ (clockfeed_compare_to_sys cexSub cexSrc true 16 none).rc = ClockfeedRc.ok
    ∧ ClockfeedRc.ok ≠ ClockfeedRc.enodata := by
  exact ⟨by decide, by decide, by decide⟩

/-- Witness for the amended claim C1 at a concrete state. -/
theorem clockfeed_read_protocol_witness :
    witSrc.inactive = false ∧ witSrc.shm.write_counter ≠ 0 ∧
    (clockfeed_compare_to_sys cexSub witSrc true 3 none).rc ≠ ClockfeedRc.enodata ∧
    (clockfeed_compare_to_sys cexSub witSrc true 3 none).diff =
      (witSrc.shm.samples.getD (sampleIndex (witSrc.shm.write_counter : Int)) CfSample.zero).snapshot
      - (witSrc.shm.samples.getD (sampleIndex (witSrc.shm.write_counter : Int)) CfSample.zero).system := by
  have h := ((clockfeed_read_protocol cexSub witSrc 3 none (by decide) (by decide)
      (by decide)).2 (by decide) (by decide)).2 (by decide)
  exact ⟨by decide, by decide, h.1, h.2⟩

/-! ### Claim C5 -/

/-- Claim C5: when the freshest sample itself carries a nonzero compare
result code, the read leg returns success (rc 0) and a zero difference, so
the caller sees a zero offset rather than an error. -/
theorem clockfeed_sample_error_zero_diff (sub : CfSub) (src : CfSource)
    (writer2Read : Nat) (monoNow : Option Int)
    (hinact : src.inactive = false)
    (h31 : src.shm.write_counter < 2147483648)
    (hne : src.shm.write_counter ≠ 0)
    (hrc : (src.shm.samples.getD (sampleIndex (src.shm.write_counter : Int)) CfSample.zero).rc ≠ 0) :
    (clockfeed_compare_to_sys sub src true writer2Read monoNow).rc = ClockfeedRc.ok
    ∧ (clockfeed_compare_to_sys sub src true writer2Read monoNow).diff = 0 := by
  have hne' : ((src.shm.write_counter : Int)) ≠ 0 := Int.natCast_ne_zero.mpr hne
  have hrc' : (src.shm.samples[sampleIndex ((src.shm.write_counter : Int))]?.getD CfSample.zero).rc ≠ 0 := by
    simpa [List.getD_eq_getElem?_getD] using hrc
  constructor <;>
    simp [clockfeed_compare_to_sys, toInt32_of_lt h31, hinact, hne', hrc']

/-- Witness for claim C5 at a concrete state. -/
theorem clockfeed_sample_error_zero_diff_witness :
    cexSrc.inactive = false ∧ cexSrc.shm.write_counter ≠ 0 ∧
    (clockfeed_compare_to_sys cexSub cexSrc true 2 none).rc = ClockfeedRc.ok ∧
    (clockfeed_compare_to_sys cexSub cexSrc true 2 none).diff = 0 := by
  have h := clockfeed_sample_error_zero_diff cexSub cexSrc 2 none (by decide) (by decide)
      (by decide) (by decide)
  exact ⟨by decide, by decide, h.1, h.2⟩

/-! ### Claim C7 -/

theorem subscribeSlots_eq_none {l : List (Option Nat)} (thread : Nat)
    (h : ∀ x ∈ l, x.isSome = true) : subscribeSlots l thread = none := by
  induction l with
  | nil => rfl
  | cons x rest ih =>
    cases x with
    | none =>
      have := h none (List.mem_cons_self _ _)
      simp at this
    | some t =>
      simp [subscribeSlots, ih (fun y hy => h y (List.mem_cons_of_mem _ hy))]

/-- Claim C7: when every one of the MAX_EVENT_SUBSCRIBERS = 4 slots is
occupied, subscribe_events reports the NO_SPACE error (delivered to the
requesting subscriber and fatal for it only, per the spec-modelled
`sfptpd_thread_exit`) and the subscriber table is left unchanged. -/
theorem clockfeed_subscribe_events_full (m : CfModule) (thread : Nat)
    (h : ∀ x ∈ m.event_subscribers, x.isSome = true) :
    clockfeed_on_subscribe_events m thread = (m, SubscribeEventsRc.noSpace) := by
  unfold clockfeed_on_subscribe_events
  rw [subscribeSlots_eq_none thread h]

/-- Witness for claim C7 at a concrete full table. -/
theorem clockfeed_subscribe_events_full_witness :
    (∀ x ∈ witModC7.event_subscribers, x.isSome = true) ∧
    clockfeed_on_subscribe_events witModC7 9 = (witModC7, SubscribeEventsRc.noSpace) :=
  ⟨by decide, clockfeed_subscribe_events_full witModC7 9 (by decide)⟩

/-! ### Claim C9 -/

theorem findBySid_append_of_not_mem {l₁ l₂ : List CfSource} {sid : Nat}
    (h : ∀ s ∈ l₁, s.sid ≠ sid) :
    findBySid (l₁ ++ l₂) sid = findBySid l₂ sid := by
  induction l₁ with
  | nil => rfl
  | cons x rest ih =>
    have hx : (x.sid == sid) = false := by
      simpa using h x (List.mem_cons_self _ _)
    simp only [findBySid, List.cons_append, List.find?]
    rw [hx]
    exact ih (fun s hs => h s (List.mem_cons_of_mem _ hs))

/-- Reaping a module whose inactive list starts with a childless zombie
whose identity does not occur among the active sources frees exactly that
zombie. -/
theorem reap_cons_inactive (m : CfModule) (s : CfSource)
    (hs : s.inactive = true) (hsub : s.subscribers = [])
    (hact : ∀ t ∈ m.active, t.sid ≠ s.sid) :
    clockfeed_reap_zombies { m with inactive := s :: m.inactive } s.sid = m := by
  unfold clockfeed_reap_zombies cfSources
  rw [findBySid_append_of_not_mem hact]
  have hfind : findBySid (s :: m.inactive) s.sid = some s := by
    simp [findBySid, List.find?]
  rw [hfind]
  simp [hs, hsub, removeBySid]

/-- Claim C9: for a fresh source identity, add_clock followed by
remove_clock of the same clock restores the module state exactly; the
freshly added source has no subscribers, so the reap inside remove_clock
frees it immediately. -/
theorem clockfeed_add_remove_round_trip (m : CfModule) (sid clock : Nat) (pp : Int)
    (h : sid ∉ cfSids m) :
    clockfeed_on_remove_clock (clockfeed_on_add_clock m sid clock pp) clock = m := by
  have hact : ∀ s ∈ m.active, s.sid ≠ sid := by
    intro s hs heq
    exact h (heq ▸ List.mem_map_of_mem _ (List.mem_append_left _ hs))
  unfold clockfeed_on_add_clock clockfeed_on_remove_clock
  simp only [removeFirstByClock, mkSource, beq_self_eq_true, if_true]
  exact reap_cons_inactive m
    { sid := sid, clock := clock,
      poll_period_log2 := if pp < m.poll_period_log2 then m.poll_period_log2 else pp,
      cycles := 0, shm := { samples := [], write_counter := 0 },
      subscribers := [], inactive := true }
    rfl rfl hact

/-- Witness for claim C9 at a concrete module. -/
theorem clockfeed_add_remove_round_trip_witness :
    (7 ∉ cfSids witModC9) ∧
    clockfeed_on_remove_clock (clockfeed_on_add_clock witModC9 7 9 2) 9 = witModC9 :=
  ⟨by decide, clockfeed_add_remove_round_trip witModC9 7 9 2 (by decide)⟩

/-! ### Claim C4 -/

theorem unsubSource_sid (sid subId : Nat) (s : CfSource) :
    (unsubSource sid subId s).sid = s.sid := by
  unfold unsubSource
  split <;> rfl

theorem unsubSource_self {sid subId : Nat} {s : CfSource} (h : s.sid = sid) :
    unsubSource sid subId s = { s with subscribers := s.subscribers.erase subId } := by
  simp [unsubSource, h]

theorem findBySid_mem_nodup {l : List CfSource} {s : CfSource}
    (hnd : (l.map (fun t => t.sid)).Nodup) (hm : s ∈ l) :
    findBySid l s.sid = some s := by
  induction l with
  | nil => cases hm
  | cons x rest ih =>
    rw [List.map_cons, List.nodup_cons] at hnd
    rcases List.mem_cons.mp hm with rfl | hm'
    · simp [findBySid, List.find?]
    · have hx : (x.sid == s.sid) = false := by
        simp only [beq_eq_false_iff_ne, ne_eq]
        intro he
        exact hnd.1 (he ▸ List.mem_map_of_mem _ hm')
      simp only [findBySid, List.find?]
      rw [hx]
      exact ih hnd.2 hm'

theorem not_mem_removeBySid_sids {l : List CfSource} {sid : Nat}
    (hnd : (l.map (fun t => t.sid)).Nodup) :
    sid ∉ (removeBySid l sid).map (fun t => t.sid) := by
  induction l with
  | nil => simp [removeBySid]
  | cons x rest ih =>
    rw [List.map_cons, List.nodup_cons] at hnd
    by_cases hx : x.sid = sid
    · rw [removeBySid, if_pos (by simpa using hx)]
      intro hmem
      exact hnd.1 (hx ▸ hmem)
    · rw [removeBySid, if_neg (by simpa using hx)]
      simp only [List.map_cons, List.mem_cons]
      rintro (he | hmem)
      · exact hx he.symm
      · exact ih hnd.2 hmem

/-- The list of source identities is unchanged by the unsubscribe map. -/
theorem map_unsubSource_sids (sid subId : Nat) (l : List CfSource) :
    (l.map (unsubSource sid subId)).map (fun t => t.sid) = l.map (fun t => t.sid) := by
  rw [List.map_map]
  exact List.map_congr_left (fun s _ => unsubSource_sid sid subId s)

/-- Claim C4: a clock-feed source is freed only when it is both inactive and
has no subscribers; a source still referenced by a subscription survives an
unsubscribe of a different subscription; and an unsubscribe that empties the
subscriber list of an inactive source reaps that source within the
unsubscribe operation itself.  Source identities are assumed distinct, as
heap addresses are. -/
theorem clockfeed_deferred_reclamation (m : CfModule) (s : CfSource) (subId : Nat)
    (hnd : (cfSids m).Nodup) :
    (s ∈ cfSources m → s ∉ cfSources (clockfeed_reap_zombies m s.sid) →
      s.inactive = true ∧ s.subscribers = [])
    ∧ (s ∈ cfSources m → s.subscribers.erase subId ≠ [] →
        { s with subscribers := s.subscribers.erase subId } ∈
          cfSources (clockfeed_on_unsubscribe m s.sid subId))
    ∧ (s ∈ m.inactive → s.inactive = true → s.subscribers.erase subId = [] →
        s.sid ∉ cfSids (clockfeed_on_unsubscribe m s.sid subId)) := by
  have hsrc' : cfSources { m with active := m.active.map (unsubSource s.sid subId),
                                  inactive := m.inactive.map (unsubSource s.sid subId) }
      = (cfSources m).map (unsubSource s.sid subId) := by
    simp [cfSources]
  have hnd' : ((cfSources m).map (unsubSource s.sid subId)).map (fun t => t.sid)
      |>.Nodup := by
    rw [map_unsubSource_sids]
    exact hnd
  refine ⟨fun hm hrem => ?_, fun hm hne => ?_, fun hmI hia hemp => ?_⟩
  · have hf : findBySid (cfSources m) s.sid = some s := findBySid_mem_nodup hnd hm
    by_cases hc : (s.inactive && s.subscribers.isEmpty) = true
    · rcases Bool.and_eq_true_iff.mp hc with ⟨h1, h2⟩
      exact ⟨h1, by simpa using h2⟩
    · exfalso
      apply hrem
      have hstep : clockfeed_reap_zombies m s.sid = m := by
        simp only [clockfeed_reap_zombies, hf]
        simp [hc]
      rw [hstep]
      exact hm
  · have hmem : unsubSource s.sid subId s ∈ (cfSources m).map (unsubSource s.sid subId) :=
      List.mem_map_of_mem _ hm
    rw [unsubSource_self rfl] at hmem
    have hfind : findBySid ((cfSources m).map (unsubSource s.sid subId)) s.sid
        = some { s with subscribers := s.subscribers.erase subId } := by
      have := findBySid_mem_nodup hnd' (List.mem_map_of_mem (unsubSource s.sid subId) hm)
      rw [unsubSource_sid] at this
      rw [this, unsubSource_self rfl]
    have hcond : (({ s with subscribers := s.subscribers.erase subId } : CfSource).inactive
        && ({ s with subscribers := s.subscribers.erase subId } : CfSource).subscribers.isEmpty)
        = false := by
      have : (s.subscribers.erase subId).isEmpty = false := by
        cases he : s.subscribers.erase subId with
        | nil => exact absurd he hne
        | cons a l => rfl
      simp [this]
    have hstep : clockfeed_on_unsubscribe m s.sid subId
        = { m with active := m.active.map (unsubSource s.sid subId),
                   inactive := m.inactive.map (unsubSource s.sid subId) } := by
      simp only [clockfeed_on_unsubscribe]
      simp only [clockfeed_reap_zombies, hsrc', hfind]
      simp [hcond]
    rw [hstep, hsrc']
    exact hmem
  · have hm : s ∈ cfSources m := List.mem_append_right _ hmI
    have hfind : findBySid ((cfSources m).map (unsubSource s.sid subId)) s.sid
        = some { s with subscribers := s.subscribers.erase subId } := by
      have := findBySid_mem_nodup hnd' (List.mem_map_of_mem (unsubSource s.sid subId) hm)
      rw [unsubSource_sid] at this
      rw [this, unsubSource_self rfl]
    have hcond : (({ s with subscribers := s.subscribers.erase subId } : CfSource).inactive
        && ({ s with subscribers := s.subscribers.erase subId } : CfSource).subscribers.isEmpty)
        = true := by
      simp [hia, hemp]
    have hstep : clockfeed_on_unsubscribe m s.sid subId
        = { m with active := m.active.map (unsubSource s.sid subId),
                   inactive := removeBySid (m.inactive.map (unsubSource s.sid subId)) s.sid } := by
      simp only [clockfeed_on_unsubscribe]
      simp only [clockfeed_reap_zombies, hsrc', hfind]
      simp [hcond]
    rw [hstep]
    -- the reap removed the source from the mapped inactive list
    have hndm : (m.active.map (fun t => t.sid) ++ m.inactive.map (fun t => t.sid)).Nodup := by
      have : cfSids m = m.active.map (fun t => t.sid) ++ m.inactive.map (fun t => t.sid) := by
        simp [cfSids, cfSources]
      rw [this] at hnd
      exact hnd
    have hdisj := (List.nodup_append.mp hndm).2.2
    have hsidIn : s.sid ∈ m.inactive.map (fun t => t.sid) := List.mem_map_of_mem _ hmI
    have hnotAct : s.sid ∉ m.active.map (fun t => t.sid) := fun hmem => hdisj hmem hsidIn
    intro hmem
    simp only [cfSids, cfSources, List.map_append, List.mem_append] at hmem
    rcases hmem with hmem | hmem
    · rw [map_unsubSource_sids] at hmem
      exact hnotAct hmem
    · have hndI : (m.inactive.map (unsubSource s.sid subId)).map (fun t => t.sid) |>.Nodup := by
        rw [map_unsubSource_sids]
        exact (List.nodup_append.mp hndm).2.1
      exact not_mem_removeBySid_sids hndI hmem

/-- Witness for claim C4: unsubscribing the sole subscriber of the inactive
source of a concrete one-source module reaps that source immediately. -/
theorem clockfeed_deferred_reclamation_witness :
    (cfSids witModC4).Nodup ∧ witSrcC4 ∈ witModC4.inactive ∧
    witSrcC4.sid ∉ cfSids (clockfeed_on_unsubscribe witModC4 witSrcC4.sid 7) :=
  ⟨by decide, by decide,
   (clockfeed_deferred_reclamation witModC4 witSrcC4 7 (by decide)).2.2
     (by decide) (by decide) (by decide)⟩

/-! ### Claim C2 -/

theorem shm_step_threshold_of_abs {x : ℚ} (h : (500000000 : ℚ) ≤ |x|) :
    shm_step_threshold x = true := by
  unfold shm_step_threshold
  rcases le_abs.mp h with h' | h'
  · simp [h']
  · have hx : x ≤ -500000000 := by linarith
    simp [hx]

/-- Claim C2: on a servo update where the clock-control policy admits
stepping (SLEW_AND_STEP, or STEP_AT_STARTUP while the servo is not yet
active, or STEP_FORWARD with a negative offset), the computed offset has
magnitude at least 500 ms, and the CLOCK_CTRL flag is enabled, the servo
commands an absolute clock step, leaves the FIR and PID filters in their
reset states (the offset is not fed into them), zeroes the time-of-day
module's offset, increments the clock-step counter, marks the servo active
and records that a step occurred. -/
theorem shm_servo_step_decision (env : ShmEnv) (inst : ShmInstance) (time tod : Timespec)
    (hpolicy : shm_step_policy env inst (shm_servo_offset inst time tod) = true)
    (hthresh : (500000000 : ℚ) ≤ |shm_servo_offset inst time tod|)
    (hctrl : inst.ctrl_flags.clock_ctrl = true) :
    (shm_servo_update env inst time tod).actions.stepped_clock = true
    ∧ (shm_servo_update env inst time tod).inst.fir_filter
        = sfptpd_fir_filter_reset inst.fir_filter
    ∧ (shm_servo_update env inst time tod).inst.pid_filter
        = sfptpd_pid_filter_reset inst.pid_filter
    ∧ (shm_servo_update env inst time tod).tod_offset = Timespec.zero
    ∧ (shm_servo_update env inst time tod).inst.clock_steps = inst.clock_steps + 1
    ∧ (shm_servo_update env inst time tod).inst.servo_active = true
    ∧ (shm_servo_update env inst time tod).inst.step_occurred = true := by
  have ht := shm_step_threshold_of_abs hthresh
  simp [shm_servo_update, shm_servo_step_clock, shm_servo_reset, hpolicy, ht, hctrl]

/-- Witness for claim C2: a 1 s time-of-day offset under SLEW_AND_STEP with
clock control enabled. -/
theorem shm_servo_step_decision_witness :
    instStepC2.ctrl_flags.clock_ctrl = true ∧
    (shm_servo_update envBase instStepC2 Timespec.zero ⟨1, 0⟩).actions.stepped_clock = true ∧
    (shm_servo_update envBase instStepC2 Timespec.zero ⟨1, 0⟩).inst.clock_steps
      = instStepC2.clock_steps + 1 ∧
    (shm_servo_update envBase instStepC2 Timespec.zero ⟨1, 0⟩).inst.servo_active = true := by
  have h := shm_servo_step_decision envBase instStepC2 Timespec.zero ⟨1, 0⟩
    (by decide)
    (by norm_num [shm_servo_offset, instStepC2, shmInstBase, Timespec.zero])
    (by decide)
  exact ⟨by decide, h.1, h.2.2.2.2.1, h.2.2.2.2.2.1⟩

/-! ### Claim C8 -/

/-- Claim C8 (amended): after a servo tick with CLOCK_CTRL enabled on which
the step decision is not taken (and a nonnegative hardware cap), the
computed frequency adjustment is saturated: |freq_adjust_ppb| is at most
freq_adjust_max.  Ticks that step the clock, or that run with CLOCK_CTRL
disabled, instead set freq_adjust_ppb to the persisted base correction with
no saturation at all. -/
theorem shm_freq_adjust_saturation (env : ShmEnv) (inst : ShmInstance) (time tod : Timespec)
    (hctrl : inst.ctrl_flags.clock_ctrl = true)
    (hnostep : (shm_step_policy env inst (shm_servo_offset inst time tod)
                && shm_step_threshold (shm_servo_offset inst time tod)) = false)
    (hmax : 0 ≤ inst.freq_adjust_max) :
    |(shm_servo_update env inst time tod).inst.freq_adjust_ppb| ≤ inst.freq_adjust_max := by
  simp only [shm_servo_update, hnostep, Bool.false_eq_true, if_false, hctrl, if_true]
  split_ifs with h1 h2
  · simp [abs_of_nonneg hmax]
  · simp [abs_of_nonneg hmax]
  · push_neg at h1 h2
    rw [abs_le]
    constructor <;> linarith

/-- Claim C8 counterexample: with CLOCK_CTRL disabled the tick sets
freq_adjust_ppb to the persisted base correction with no saturation; with a
base of 2 ppb and a hardware cap of 1 ppb the claimed bound fails. -/
theorem shm_freq_saturation_cex :
    ¬(|(shm_servo_update envNoStep instCexC8 Timespec.zero Timespec.zero).inst.freq_adjust_ppb|
      ≤ (shm_servo_update envNoStep instCexC8 Timespec.zero Timespec.zero).inst.freq_adjust_max) := by
  have h1 : (shm_servo_update envNoStep instCexC8 Timespec.zero Timespec.zero).inst.freq_adjust_ppb
      = 2 := by decide
  have h2 : (shm_servo_update envNoStep instCexC8 Timespec.zero Timespec.zero).inst.freq_adjust_max
      = 1 := by decide
  rw [h1, h2]
  norm_num

/-- Witness for the amended claim C8. -/
theorem shm_freq_adjust_saturation_witness :
    instWitC8.ctrl_flags.clock_ctrl = true ∧
    |(shm_servo_update envNoStep instWitC8 Timespec.zero Timespec.zero).inst.freq_adjust_ppb|
      ≤ instWitC8.freq_adjust_max :=
  ⟨by decide,
   shm_freq_adjust_saturation envNoStep instWitC8 Timespec.zero Timespec.zero
     (by decide) (by decide) (by decide)⟩

/-! ### Claim C10 -/

/-- Claim C10: a CONTROL message that clears a previously-set CLOCK_CTRL
flag (without also clearing TIMESTAMP_PROCESSING) resets only the PID
filter, and one that clears a previously-set TIMESTAMP_PROCESSING flag
(without also clearing CLOCK_CTRL) zeroes only the stored SHM timestamp
anchor; in each case every other instance field is unchanged. -/
theorem shm_on_control_effects (inst : ShmInstance) (mask flags : CtrlFlags) :
    (inst.ctrl_flags.clock_ctrl = true →
      (CtrlFlags.apply inst.ctrl_flags mask flags).clock_ctrl = false →
      (inst.ctrl_flags.timestamp_processing = false ∨
        (CtrlFlags.apply inst.ctrl_flags mask flags).timestamp_processing = true) →
      shm_on_control inst mask flags =
        { inst with ctrl_flags := CtrlFlags.apply inst.ctrl_flags mask flags,
                    pid_filter := sfptpd_pid_filter_reset inst.pid_filter })
    ∧ (inst.ctrl_flags.timestamp_processing = true →
        (CtrlFlags.apply inst.ctrl_flags mask flags).timestamp_processing = false →
        (inst.ctrl_flags.clock_ctrl = false ∨
          (CtrlFlags.apply inst.ctrl_flags mask flags).clock_ctrl = true) →
        shm_on_control inst mask flags =
          { inst with ctrl_flags := CtrlFlags.apply inst.ctrl_flags mask flags,
                      shm_timestamp := Timespec.zero }) := by
  constructor
  · intro h1 h2 h3
    have hts : (inst.ctrl_flags.timestamp_processing
        && !(CtrlFlags.apply inst.ctrl_flags mask flags).timestamp_processing) = false := by
      rcases h3 with h | h <;> simp [h]
    simp [shm_on_control, h1, h2, hts]
  · intro h1 h2 h3
    have hcc : (inst.ctrl_flags.clock_ctrl
        && !(CtrlFlags.apply inst.ctrl_flags mask flags).clock_ctrl) = false := by
      rcases h3 with h | h <;> simp [h]
    simp [shm_on_control, h1, h2, hcc]

/-- Witness for claim C10: clearing CLOCK_CTRL alone on a concrete
instance. -/
theorem shm_on_control_effects_witness :
    instWitC10.ctrl_flags.clock_ctrl = true ∧
    (CtrlFlags.apply instWitC10.ctrl_flags maskC10 flagsOffC10).clock_ctrl = false ∧
    shm_on_control instWitC10 maskC10 flagsOffC10 =
      { instWitC10 with
          ctrl_flags := CtrlFlags.apply instWitC10.ctrl_flags maskC10 flagsOffC10,
          pid_filter := sfptpd_pid_filter_reset instWitC10.pid_filter } :=
  ⟨by decide, by decide,
   (shm_on_control_effects instWitC10 maskC10 flagsOffC10).1 (by decide) (by decide)
     (Or.inr (by decide))⟩

/-! ### Claim C6 -/

/-- Claim C6 (code bug): in SLAVE with an alarm raised, the convergence
update does not reset the convergence accumulator, but contrary to the
claim and to the code's own comment it also never assigns
synchronized = false: the instance is returned entirely unchanged, so a
previously-true synchronized flag stays true while the alarm is raised. -/
theorem shm_convergence_alarm_frozen_sync :
    instAlarmedC6.state = SyncState.slave
    ∧ instAlarmedC6.alarms ≠ Alarms.clear
    ∧ instAlarmedC6.synchronized = true
    ∧ shm_convergence_update true 0 instAlarmedC6 = instAlarmedC6 := by
  exact ⟨by decide, by decide, by decide, by decide⟩

/-! ### Claim C3 -/

/-- Claim C3 (amended): a FAULTY instance processing a successful SHM event
transitions to SLAVE exactly as from LISTENING, clearing the stored period
but not resetting the rest of the state machine (alarms and the good-period
count are preserved); the reset back to LISTENING happens instead when a
FAULTY instance completes a poll with no event. -/
theorem shm_faulty_event_transition (env : ShmEnv) (inst : ShmInstance) (tod : Timespec)
    (seq_num : Nat) (time : Timespec) (now : Int)
    (h : inst.state = SyncState.faulty) :
    ((shm_on_shm_event env inst tod seq_num time).inst.state = SyncState.slave
      ∧ (shm_on_shm_event env inst tod seq_num time).inst.shm_period_ns = 0
      ∧ (shm_on_shm_event env inst tod seq_num time).inst.alarms = inst.alarms
      ∧ (shm_on_shm_event env inst tod seq_num time).inst.consecutive_good_periods
          = inst.consecutive_good_periods)
    ∧ shm_on_no_shm_event now inst = shm_state_machine_reset inst := by
  constructor
  · simp [shm_on_shm_event, h]
  · simp [shm_on_no_shm_event, h]

/-- Claim C3 counterexample: processing a successful event in the FAULTY
state yields the SLAVE state, not the LISTENING state the claim requires,
and the alarms are not cleared (so no state-machine reset happened). -/
theorem shm_faulty_event_cex :
    (shm_on_shm_event envBase instFaultyC3 Timespec.zero 5 ⟨10, 0⟩).inst.state = SyncState.slave
    ∧ SyncState.slave ≠ SyncState.listening
    ∧ (shm_on_shm_event envBase instFaultyC3 Timespec.zero 5 ⟨10, 0⟩).inst.alarms ≠ Alarms.clear := by
  exact ⟨by decide, by decide, by decide⟩

/-- Witness for the amended claim C3. -/
theorem shm_faulty_event_transition_witness :
    instFaultyC3.state = SyncState.faulty ∧
    (shm_on_shm_event envBase instFaultyC3 Timespec.zero 5 ⟨10, 0⟩).inst.state = SyncState.slave ∧
    shm_on_no_shm_event 0 instFaultyC3 = shm_state_machine_reset instFaultyC3 := by
  have h := shm_faulty_event_transition envBase instFaultyC3 Timespec.zero 5 ⟨10, 0⟩ 0 (by decide)
  exact ⟨by decide, h.1.1, h.2⟩

end Sfptpd
